import Mathlib

/-!
Shallow embedding of `CSharpExecutorProxy`
(src/src/promptflow-devkit/promptflow/batch/_csharp_executor_proxy.py).

External effects (the OS socket allocator, `subprocess.Popen`, the dotnet
service, `DataplaneFlow.from_yaml`, and the base-class coroutine
`ensure_executor_startup`) are modelled as inputs of an environment record;
the observable side effects of `create` and `destroy` (file creation and
deletion, process launch, signal delivery, waiting, killing) are recorded in
an explicit trace so that claims about "no signal is sent" or "the error file
still exists" are statable.
-/

/-- Errors that the Python code can raise on the modelled paths.
`typeError` is the `TypeError` raised by `Path(None)`; `unexpectedError` is
`promptflow._core._errors.UnexpectedError` with its message;
`popenError` stands for an OS-level failure of `subprocess.Popen`;
`parseError` stands for any exception raised by `DataplaneFlow.from_yaml`;
`startupFailure` and `startupTimeout` are the structured failures of the
startup synchronization protocol. -/
inductive Err
  | typeError
  | unexpectedError (msg : String)
  | popenError
  | parseError
  | startupFailure (payload : String)
  | startupTimeout
  deriving DecidableEq

/-- One entry of the outputs definition: `outputs_definition[key]` carries an
`is_chat_output` flag in the source. -/
structure FlowOutputDefinition where
  is_chat_output : Bool
  deriving DecidableEq

/-- The proxy object built by `CSharpExecutorProxy.__init__`: process handle
(nullable, a pid when owned), bound port, working directory, designated chat
output name, and the stream-output flag. -/
structure CSharpExecutorProxy where
  process : Option Nat
  port : String
  working_dir : Option String
  chat_output_name : Option String
  enable_stream_output : Bool
  deriving DecidableEq

/-- `EXECUTOR_SERVICE_DOMAIN = "http://localhost:"` from the source. -/
def EXECUTOR_SERVICE_DOMAIN : String := "http://localhost:"

/-- Property `api_endpoint`: `EXECUTOR_SERVICE_DOMAIN + self.port`. -/
def api_endpoint (p : CSharpExecutorProxy) : String :=
  EXECUTOR_SERVICE_DOMAIN ++ p.port

/-- `CSharpExecutorProxy.get_outputs_definition`: if `is_flex_flow(...)`
returns true the method returns `{}`; otherwise it returns
`DataplaneFlow.from_yaml(flow_file, working_dir).outputs`, whose value (or
raised exception) is the `from_yaml` argument here, since that collaborator
is external to this file. -/
def get_outputs_definition (flex : Bool)
    (from_yaml : Except Err (List (String × FlowOutputDefinition))) :
    Except Err (List (String × FlowOutputDefinition)) :=
  if flex then Except.ok [] else from_yaml

/-- The `chat_output_name` computation in `create`:
`next(filter(lambda key: outputs_definition[key].is_chat_output, outputs_definition.keys()), None)`,
i.e. the first key whose definition has `is_chat_output`, else `None`. -/
def chat_output_from (defs : List (String × FlowOutputDefinition)) : Option String :=
  (defs.find? (fun kv => kv.2.is_chat_output)).map (fun kv => kv.1)

/-- Environment of one call to `create`: its arguments together with the
outcomes of the external collaborators it consults, in program order. -/
structure CreateEnv where
  flow_file : String
  working_dir : Option String
  port_kwarg : Option String
  log_path : String
  enable_stream_output : Bool
  available_port : String
  popen_result : Except Err Nat
  flex : Bool
  from_yaml_outputs : Except Err (List (String × FlowOutputDefinition))
  startup_result : Except Err Unit

/-- Observable side effects of one call to `create`:
whether `find_available_port` was consulted, whether a process was launched,
whether `ensure_executor_startup` was awaited, and whether the
`init_error_file` still exists when `create` returns or raises. -/
structure CreateTrace where
  allocatorCalled : Bool
  launched : Bool
  startupRun : Bool
  errorFileExists : Bool
  deriving DecidableEq

/-- The tail of `create` after the port/launch branch: the
`get_outputs_definition` call, proxy construction, and the
`try: await ensure_executor_startup(init_error_file) finally: unlink()`
block.  An exception from `get_outputs_definition` propagates before the
`try` is entered, so the error file survives it; once the `try` block is
reached the `finally` deletes the file on success and failure alike. -/
def createRest (env : CreateEnv) (proc : Option Nat) (port : String)
    (alloc : Bool) : Except Err CSharpExecutorProxy × CreateTrace :=
  match get_outputs_definition env.flex env.from_yaml_outputs with
  | Except.error e =>
      (Except.error e,
       { allocatorCalled := alloc, launched := proc.isSome,
         startupRun := false, errorFileExists := true })
  | Except.ok outputs_definition =>
      let proxy : CSharpExecutorProxy :=
        { process := proc, port := port, working_dir := env.working_dir,
          chat_output_name := chat_output_from outputs_definition,
          enable_stream_output := env.enable_stream_output }
      match env.startup_result with
      | Except.ok _ =>
          (Except.ok proxy,
           { allocatorCalled := alloc, launched := proc.isSome,
             startupRun := true, errorFileExists := false })
      | Except.error e =>
          (Except.error e,
           { allocatorCalled := alloc, launched := proc.isSome,
             startupRun := true, errorFileExists := false })

/-- `CSharpExecutorProxy.create`.  Steps in source order:
`Path(working_dir)` raises `TypeError` when `working_dir` is `None` (before
the error file is touched, the allocator is consulted, or anything is
launched); then `init_error_file.touch()`; then either the supplied port is
used with `process = None`, or `find_available_port` and `subprocess.Popen`
run; then `createRest` finishes the call. -/
def create (env : CreateEnv) : Except Err CSharpExecutorProxy × CreateTrace :=
  match env.working_dir with
  | none =>
      (Except.error Err.typeError,
       { allocatorCalled := false, launched := false,
         startupRun := false, errorFileExists := false })
  | some _ =>
      match env.port_kwarg with
      | some p => createRest env none p false
      | none =>
          match env.popen_result with
          | Except.error e =>
              (Except.error e,
               { allocatorCalled := true, launched := false,
                 startupRun := false, errorFileExists := true })
          | Except.ok pid => createRest env (some pid) env.available_port true

/-- `CSharpExecutorProxy._is_executor_active`: `True` when `self._process is
None`, otherwise `self._process.poll() is None`; the poll outcome (`true`
when the process has not exited) is the second argument. -/
def is_executor_active (p : CSharpExecutorProxy) (poll_running : Bool) : Bool :=
  match p.process with
  | none => true
  | some _ => poll_running

/-- The graceful-termination signal chosen in `destroy`:
`signal.CTRL_C_EVENT` on Windows, `Popen.terminate()` (SIGTERM) elsewhere. -/
inductive GracefulSignal
  | ctrl_c_event
  | sigterm
  deriving DecidableEq

/-- Environment of one call to `destroy`: the result of the base-class
check `_all_generators_exhausted`, whether `platform.system()` is Windows,
whether `poll()` reports the process still running, and whether
`wait(timeout=5)` returns before `TimeoutExpired`. -/
structure DestroyEnv where
  all_generators_exhausted : Bool
  windows : Bool
  poll_running : Bool
  exits_within_grace : Bool
  deriving DecidableEq

/-- Observable side effects of one call to `destroy`: which graceful signal
(if any) was sent, whether `wait(timeout=5)` was entered, and whether
`kill()` fired. -/
structure DestroyTrace where
  signal_sent : Option GracefulSignal
  waited : Bool
  killed : Bool
  deriving DecidableEq

/-- The message of the `UnexpectedError` raised by `destroy` while a stream
response is outstanding. -/
def busyMessage : String :=
  "The executor service is still handling a stream request whose response is not fully consumed yet."

/-- `CSharpExecutorProxy.destroy`: raise the busy `UnexpectedError` when not
all generators are exhausted; otherwise, when the proxy owns a process that
`_is_executor_active` reports running, send the platform signal, wait up to
the 5 second grace period, and `kill()` on `TimeoutExpired`. -/
def destroy (p : CSharpExecutorProxy) (env : DestroyEnv) :
    Except Err Unit × DestroyTrace :=
  if !env.all_generators_exhausted then
    (Except.error (Err.unexpectedError busyMessage),
     { signal_sent := none, waited := false, killed := false })
  else
    match p.process with
    | none =>
        (Except.ok (), { signal_sent := none, waited := false, killed := false })
    | some _ =>
        if is_executor_active p env.poll_running then
          let sig := if env.windows then GracefulSignal.ctrl_c_event
                     else GracefulSignal.sigterm
          if env.exits_within_grace then
            (Except.ok (), { signal_sent := some sig, waited := true, killed := false })
          else
            (Except.ok (), { signal_sent := some sig, waited := true, killed := true })
        else
          (Except.ok (), { signal_sent := none, waited := false, killed := false })

/-- Outcome of the startup synchronization protocol. -/
inductive StartupOutcome
  | ready
  | startupFailure (payload : String)
  | startupTimeout
  deriving DecidableEq

/-- Modelled from the spec: `ensure_executor_startup` is defined in
`CSharpBaseExecutorProxy`, which is not part of this excerpt; only its call
site in `create` is.  Following spec section 4.3, the protocol is a poll
loop observing, at cycle `i`, the content of the InitErrorReport file when
non-empty (`error_file_content i`) and the liveness probe result
(`liveness_probe i`), with `maxCycles` poll cycles before timeout. -/
structure StartupPollEnv where
  error_file_content : Nat → Option String
  liveness_probe : Nat → Bool
  maxCycles : Nat

/-- Modelled from the spec: one fuelled run of the poll loop starting at
cycle `i`.  Each cycle checks the failure signal first and fails with the
captured payload; only when the file is still empty does a successful
liveness probe declare readiness; exhausting the fuel is a timeout. -/
def startupGo (errc : Nat → Option String) (live : Nat → Bool) :
    Nat → Nat → StartupOutcome
  | 0, _ => StartupOutcome.startupTimeout
  | n + 1, i =>
      match errc i with
      | some payload => StartupOutcome.startupFailure payload
      | none =>
          if live i then StartupOutcome.ready
          else startupGo errc live n (i + 1)

/-- Modelled from the spec: the whole startup synchronization protocol,
polling from cycle 0. -/
def ensure_executor_startup (env : StartupPollEnv) : StartupOutcome :=
  startupGo env.error_file_content env.liveness_probe env.maxCycles 0

/-- How a protocol outcome surfaces at the `create` call site: readiness
returns, a populated error report raises `StartupFailure` with the payload,
and exhaustion raises the timeout error. -/
def startup_outcome_as_result : StartupOutcome → Except Err Unit
  | StartupOutcome.ready => Except.ok ()
  | StartupOutcome.startupFailure payload => Except.error (Err.startupFailure payload)
  | StartupOutcome.startupTimeout => Except.error Err.startupTimeout

/-- A proxy that owns its process, as built by a no-port `create`. -/
def proxyOwned : CSharpExecutorProxy :=
  { process := some 4242, port := "50051", working_dir := some "/tmp/flowA",
    chat_output_name := none, enable_stream_output := false }

/-- A proxy over a pre-existing service attached by caller-supplied port. -/
def proxyBorrowed : CSharpExecutorProxy :=
  { process := none, port := "53917", working_dir := some "/tmp/flowA",
    chat_output_name := none, enable_stream_output := false }

/-- A baseline `create` environment in which every collaborator succeeds and
the caller supplies port 53917. -/
def envPortSupplied : CreateEnv :=
  { flow_file := "flow.dag.yaml", working_dir := some "/tmp/flowA",
    port_kwarg := some "53917", log_path := "", enable_stream_output := false,
    available_port := "50051", popen_result := Except.ok 4242,
    flex := true, from_yaml_outputs := Except.ok [],
    startup_result := Except.ok () }

/-- A `create` environment in which no port is supplied and
`DataplaneFlow.from_yaml` raises inside `get_outputs_definition`. -/
def envYamlRaises : CreateEnv :=
  { flow_file := "flow.dag.yaml", working_dir := some "/tmp/flowA",
    port_kwarg := some "53917", log_path := "", enable_stream_output := false,
    available_port := "50051", popen_result := Except.ok 4242,
    flex := false, from_yaml_outputs := Except.error Err.parseError,
    startup_result := Except.ok () }

/-- A `create` environment with no working directory supplied. -/
def envNoWorkingDir : CreateEnv :=
  { flow_file := "flow.dag.yaml", working_dir := none,
    port_kwarg := none, log_path := "", enable_stream_output := false,
    available_port := "50051", popen_result := Except.ok 4242,
    flex := false, from_yaml_outputs := Except.ok [],
    startup_result := Except.ok () }

/-- A flex-flow `create` environment with a freshly allocated port. -/
def envFlexFlow : CreateEnv :=
  { flow_file := "flow_entry.py", working_dir := some "/tmp/flowA",
    port_kwarg := none, log_path := "", enable_stream_output := false,
    available_port := "50051", popen_result := Except.ok 4242,
    flex := true, from_yaml_outputs := Except.error Err.parseError,
    startup_result := Except.ok () }

/-- A `destroy` environment with one generator still unconsumed. -/
def envBusy : DestroyEnv :=
  { all_generators_exhausted := false, windows := false,
    poll_running := true, exits_within_grace := true }

/-- A `destroy` environment with all generators exhausted, a running
process on a POSIX platform, and a process that honors SIGTERM within the
grace period. -/
def envDrained : DestroyEnv :=
  { all_generators_exhausted := true, windows := false,
    poll_running := true, exits_within_grace := true }

/-- Modelled from the spec: a poll history in which `bad yaml` is written to
the error report at cycle 1 and the service becomes reachable from cycle 1
on, within a three-cycle budget. -/
def pollEnvBadYaml : StartupPollEnv :=
  { error_file_content := fun j => if j = 1 then some "bad yaml" else none,
    liveness_probe := fun j => Nat.ble 1 j,
    maxCycles := 3 }

/-- A `create` environment whose startup step surfaces the outcome of the
`pollEnvBadYaml` protocol run. -/
def envStartupBadYaml : CreateEnv :=
  { flow_file := "flow.dag.yaml", working_dir := some "/tmp/flowA",
    port_kwarg := none, log_path := "", enable_stream_output := false,
    available_port := "50051", popen_result := Except.ok 4242,
    flex := false,
    from_yaml_outputs := Except.ok [("answer", { is_chat_output := true })],
    startup_result := startup_outcome_as_result (ensure_executor_startup pollEnvBadYaml) }

/-- Helper: when the startup step of `create` raises, `create` never
returns a proxy, whichever earlier branch was taken. -/
theorem create_no_proxy_of_startup_error (env : CreateEnv) (e : Err)
    (hse : env.startup_result = Except.error e) (p : CSharpExecutorProxy) :
    (create env).1 ≠ Except.ok p := by
  intro hok
  unfold create createRest at hok
  rw [hse] at hok
  repeat' split at hok
  all_goals simp_all

/-- Helper: a fuelled run of the poll loop that starts at `start` and meets
a populated error report at cycle `i`, with neither signal observed at any
earlier cycle, ends in `startupFailure` with that report content, whatever
the liveness probe says from cycle `i` on. -/
theorem startupGo_first_failure (errc : Nat → Option String) (live : Nat → Bool) :
    ∀ (fuel start i : Nat) (payload : String), start ≤ i → i < start + fuel →
      errc i = some payload →
      (∀ j, start ≤ j → j < i → errc j = none ∧ live j = false) →
      startupGo errc live fuel start = StartupOutcome.startupFailure payload := by
  intro fuel
  induction fuel with
  | zero =>
      intro start i payload hsi hlt _ _
      omega
  | succ n ih =>
      intro start i payload hsi hlt herr hprev
      rcases Nat.eq_or_lt_of_le hsi with heq | hlt2
      · subst heq
        simp [startupGo, herr]
      · have hnone := (hprev start le_rfl hlt2).1
        have hlive := (hprev start le_rfl hlt2).2
        simp [startupGo, hnone, hlive]
        exact ih (start + 1) i payload hlt2 (by omega) herr
          (fun j hj1 hj2 => hprev j (by omega) hj2)

/-- C3: while at least one stream-consumer handle is outstanding (the base
check `_all_generators_exhausted` reports `false`), `destroy` fails
immediately with the busy `UnexpectedError` and performs no action: no
signal is sent, no wait is entered, no kill fires, so the process state is
untouched and a running process still polls as running. -/
theorem C3_destroy_busy_when_stream_outstanding (p : CSharpExecutorProxy)
    (env : DestroyEnv) (h : env.all_generators_exhausted = false) :
    destroy p env =
      (Except.error (Err.unexpectedError busyMessage),
       { signal_sent := none, waited := false, killed := false }) := by
  simp [destroy, h]

/-- Witness for C3 at a concrete proxy owning a running process. -/
theorem C3_witness :
    envBusy.all_generators_exhausted = false ∧
      destroy proxyOwned envBusy =
        (Except.error (Err.unexpectedError busyMessage),
         { signal_sent := none, waited := false, killed := false }) :=
  ⟨rfl, C3_destroy_busy_when_stream_outstanding proxyOwned envBusy rfl⟩

/-- C5: with all generators exhausted and an owned, still-running process,
`destroy` sends the platform-appropriate graceful signal (`CTRL_C_EVENT` on
Windows, SIGTERM via `terminate()` otherwise), enters the bounded wait,
kills exactly when the grace period expires, and returns success in the
graceful-exit and forced-kill cases alike. -/
theorem C5_destroy_graceful_then_kill (p : CSharpExecutorProxy)
    (env : DestroyEnv) (pid : Nat) (hex : env.all_generators_exhausted = true)
    (hp : p.process = some pid) (hrun : env.poll_running = true) :
    (destroy p env).1 = Except.ok () ∧
      (destroy p env).2.signal_sent =
        some (if env.windows then GracefulSignal.ctrl_c_event
              else GracefulSignal.sigterm) ∧
      (destroy p env).2.waited = true ∧
      (destroy p env).2.killed = !env.exits_within_grace := by
  simp only [destroy, hex, hp, is_executor_active, hrun]
  cases env.windows <;> cases env.exits_within_grace <;> simp

/-- Witness for C5: a drained POSIX proxy whose process honors SIGTERM. -/
theorem C5_witness :
    (destroy proxyOwned envDrained).1 = Except.ok () ∧
      (destroy proxyOwned envDrained).2.signal_sent =
        some (if envDrained.windows then GracefulSignal.ctrl_c_event
              else GracefulSignal.sigterm) ∧
      (destroy proxyOwned envDrained).2.waited = true ∧
      (destroy proxyOwned envDrained).2.killed = !envDrained.exits_within_grace :=
  C5_destroy_graceful_then_kill proxyOwned envDrained 4242 rfl rfl rfl

/-- C6: with all generators exhausted and no owned process handle (service
attached by caller-supplied port), `destroy` succeeds immediately and sends
no signal, enters no wait, and issues no kill. -/
theorem C6_destroy_noop_without_process (p : CSharpExecutorProxy)
    (env : DestroyEnv) (hex : env.all_generators_exhausted = true)
    (hp : p.process = none) :
    destroy p env =
      (Except.ok (), { signal_sent := none, waited := false, killed := false }) := by
  simp [destroy, hex, hp]

/-- Witness for C6 at the borrowed-service proxy. -/
theorem C6_witness :
    destroy proxyBorrowed envDrained =
      (Except.ok (), { signal_sent := none, waited := false, killed := false }) :=
  C6_destroy_noop_without_process proxyBorrowed envDrained rfl rfl

/-- C9: `_is_executor_active` returns `True` unconditionally when the
process handle is `None` — whatever the poll outcome would be, a borrowed
service is always considered active and its reachability is never probed. -/
theorem C9_borrowed_always_active (p : CSharpExecutorProxy) (b : Bool)
    (hp : p.process = none) : is_executor_active p b = true := by
  simp [is_executor_active, hp]

/-- Witness for C9: even with a poll outcome meaning "exited", the
borrowed proxy is reported active. -/
theorem C9_witness : is_executor_active proxyBorrowed false = true :=
  C9_borrowed_always_active proxyBorrowed false rfl

/-- C10: calling `create` without a working directory fails immediately
with the `TypeError` of `Path(None)`, before the error file is touched, a
port is allocated, or a process is launched. -/
theorem C10_create_requires_working_dir (env : CreateEnv)
    (h : env.working_dir = none) :
    create env =
      (Except.error Err.typeError,
       { allocatorCalled := false, launched := false,
         startupRun := false, errorFileExists := false }) := by
  simp [create, h]

/-- Witness for C10 at a concrete environment with `working_dir = None`. -/
theorem C10_witness :
    create envNoWorkingDir =
      (Except.error Err.typeError,
       { allocatorCalled := false, launched := false,
         startupRun := false, errorFileExists := false }) :=
  C10_create_requires_working_dir envNoWorkingDir rfl

/-- Counterexample to C1 as stated: at a concrete call with a
caller-supplied port, `create` still awaits `ensure_executor_startup` (the
`try` block runs after the port/launch branch unconditionally), so "no
startup synchronization is performed in that branch" fails. -/
theorem C1_counterexample :
    envPortSupplied.port_kwarg = some "53917" ∧
      (create envPortSupplied).2.launched = false ∧
      (create envPortSupplied).2.startupRun = true :=
  ⟨rfl, rfl, rfl⟩

/-- C1 (amended): with a caller-supplied port, no process is launched, the
allocator is not consulted, and any returned proxy has a null process
handle; however `ensure_executor_startup` is still awaited on every path
that constructs the proxy. -/
theorem C1_port_supplied_no_launch (env : CreateEnv) (port : String)
    (hport : env.port_kwarg = some port) :
    (create env).2.launched = false ∧ (create env).2.allocatorCalled = false ∧
      ∀ p, (create env).1 = Except.ok p →
        p.process = none ∧ (create env).2.startupRun = true := by
  unfold create createRest
  rw [hport]
  repeat' split
  all_goals simp_all

/-- Witness for C1 (amended): the concrete port-53917 call returns the
borrowed proxy with no launch, yet the startup step did run. -/
theorem C1_witness :
    (create envPortSupplied).2.launched = false ∧
      (create envPortSupplied).2.allocatorCalled = false ∧
      proxyBorrowed.process = none ∧
      (create envPortSupplied).2.startupRun = true := by
  have h := C1_port_supplied_no_launch envPortSupplied "53917" rfl
  exact ⟨h.1, h.2.1, (h.2.2 proxyBorrowed rfl).1, (h.2.2 proxyBorrowed rfl).2⟩

/-- Counterexample to C2 as stated: when `DataplaneFlow.from_yaml` raises
inside `get_outputs_definition`, `create` raises before the
`try ... finally` block is entered, and the InitErrorReport file still
exists. -/
theorem C2_counterexample :
    (create envYamlRaises).1 = Except.error Err.parseError ∧
      (create envYamlRaises).2.errorFileExists = true :=
  ⟨rfl, rfl⟩

/-- C2 (amended): the InitErrorReport file is deleted before `create`
returns or raises whenever the startup-synchronization step is reached
(its `finally` clause fires on success and failure alike); an error raised
earlier — by `Popen` or by the output-definition lookup — leaves the file
in place. -/
theorem C2_error_file_deleted_when_startup_reached (env : CreateEnv)
    (h : (create env).2.startupRun = true) :
    (create env).2.errorFileExists = false := by
  revert h
  unfold create createRest
  repeat' split
  all_goals simp

/-- Witness for C2 (amended): a concrete successful creation whose startup
step ran and whose error file is gone. -/
theorem C2_witness :
    (create envPortSupplied).2.startupRun = true ∧
      (create envPortSupplied).2.errorFileExists = false :=
  ⟨rfl, C2_error_file_deleted_when_startup_reached envPortSupplied rfl⟩

/-- C4: when the InitErrorReport is populated at a poll cycle before which
the liveness probe never succeeded, the startup protocol ends in
`startupFailure` carrying that payload — whatever the probe says at that
same cycle or later — and a `create` whose startup step surfaces this
outcome raises and returns no proxy. -/
theorem C4_failure_signal_priority (penv : StartupPollEnv) (cenv : CreateEnv)
    (i : Nat) (payload : String)
    (h1 : i < penv.maxCycles)
    (h2 : penv.error_file_content i = some payload)
    (h3 : ∀ j, j < i → penv.error_file_content j = none ∧ penv.liveness_probe j = false)
    (h4 : cenv.startup_result = startup_outcome_as_result (ensure_executor_startup penv)) :
    ensure_executor_startup penv = StartupOutcome.startupFailure payload ∧
      ∀ p, (create cenv).1 ≠ Except.ok p := by
  have hfail : ensure_executor_startup penv = StartupOutcome.startupFailure payload := by
    unfold ensure_executor_startup
    exact startupGo_first_failure penv.error_file_content penv.liveness_probe
      penv.maxCycles 0 i payload (Nat.zero_le i) (by omega) h2
      (fun j _ hj => h3 j hj)
  refine ⟨hfail, fun p => ?_⟩
  exact create_no_proxy_of_startup_error cenv (Err.startupFailure payload)
    (by rw [h4, hfail]; rfl) p

/-- Witness for C4: `bad yaml` is written at cycle 1 while the service is
reachable from cycle 1 on; the protocol fails with that payload and the
creation returns no proxy. -/
theorem C4_witness :
    ensure_executor_startup pollEnvBadYaml = StartupOutcome.startupFailure "bad yaml" ∧
      (create envStartupBadYaml).1 ≠ Except.ok proxyOwned := by
  have h := C4_failure_signal_priority pollEnvBadYaml envStartupBadYaml 1 "bad yaml"
    (by decide) rfl (by decide) rfl
  exact ⟨h.1, h.2 proxyOwned⟩

/-- C7: every proxy returned by `create` has
`api_endpoint = "http://localhost:" + port`, and its port is either the
caller-supplied port or the one produced by `find_available_port`. -/
theorem C7_endpoint_and_port (env : CreateEnv) (p : CSharpExecutorProxy)
    (h : (create env).1 = Except.ok p) :
    api_endpoint p = "http://localhost:" ++ p.port ∧
      (env.port_kwarg = some p.port ∨
        (env.port_kwarg = none ∧ p.port = env.available_port)) := by
  unfold create createRest at h
  repeat' split at h
  all_goals simp at h
  all_goals subst h
  all_goals simp_all [api_endpoint, EXECUTOR_SERVICE_DOMAIN]

/-- Witness for C7 at a concrete creation with an allocated port. -/
theorem C7_witness :
    api_endpoint proxyOwned = "http://localhost:" ++ proxyOwned.port ∧
      (envFlexFlow.port_kwarg = some proxyOwned.port ∨
        (envFlexFlow.port_kwarg = none ∧ proxyOwned.port = envFlexFlow.available_port)) :=
  C7_endpoint_and_port envFlexFlow proxyOwned rfl

/-- C8: for a flex (schema-less) flow, `get_outputs_definition` returns the
empty mapping and the proxy constructed by `create` has no designated chat
output name. -/
theorem C8_flex_flow_empty_outputs_no_chat (env : CreateEnv)
    (p : CSharpExecutorProxy) (hfx : env.flex = true)
    (h : (create env).1 = Except.ok p) :
    get_outputs_definition env.flex env.from_yaml_outputs = Except.ok [] ∧
      p.chat_output_name = none := by
  constructor
  · simp [get_outputs_definition, hfx]
  · unfold create createRest at h
    repeat' split at h
    all_goals simp at h
    all_goals subst h
    all_goals simp_all [get_outputs_definition, chat_output_from]

/-- Witness for C8 at a concrete flex flow creation. -/
theorem C8_witness :
    get_outputs_definition envFlexFlow.flex envFlexFlow.from_yaml_outputs = Except.ok [] ∧
      proxyOwned.chat_output_name = none :=
  C8_flex_flow_empty_outputs_no_chat envFlexFlow proxyOwned rfl rfl
